/-
Verification development for the crypto-signal-bot repository
(single source file: trading_bot.py).

The Python source is shallowly embedded below.  Prices and indicator
values are modelled as exact rationals (ℚ); pandas "NaN"/absent values
become `Option` `none`; a pandas DataFrame of OHLCV rows becomes a
`List Candle` (plus, for the purity claim, an explicit `DataFrame`
record that also carries the in-place appended indicator columns).

Embedded functions and their Python counterparts:
  * `rsi14`      — `df.ta.rsi(length=14, append=True)` read at the last row
                   (pandas_ta `rsi`: Wilder RMA = `ewm(alpha=1/14, min_periods=14,
                   adjust=True)` of up-moves and of down-moves over `close.diff()`;
                   `RSI = 100 * avgGain / (avgGain + avgLoss)`; the leading NaN of
                   `diff` makes the value defined at the last index iff the series
                   has at least 15 closes; `avgGain + avgLoss = 0` gives 0/0 = NaN,
                   modelled as `none`).
  * `ema50`      — `df.ta.ema(length=50, append=True)` read at the last row
                   (pandas_ta `ema`: SMA of the first 50 closes as seed, then the
                   recurrence `ema = close * (2/51) + ema * (49/51)`; defined at
                   the last index iff the series has at least 50 closes).
  * `strategy_eval` / `generate_signal` — `generate_signal(df, symbol, timeframe)`,
                   including the Python semantics `NaN < 35 = False` and
                   `close > NaN = False` for absent indicator values.
  * `format4`    — Python fixed-point formatting with 4 decimals (round half to even).
  * `start`      — the `/start` command handler (subscriber registration).
  * `check_for_signals` — the scheduled job; it returns a `RunTrace` recording the
                   warning log, the pairs fetched, the pairs evaluated and the
                   messages pushed to the Telegram channel, in program order.
                   Python truthiness of `if not TARGET_CHAT_ID` (chat id 0 is
                   falsy) is modelled by `isFalsyChat`.
  * `scheduledRuns` — the scheduler firing `check_for_signals` repeatedly; the
                   source keeps no state between runs.
-/
import Mathlib

attribute [local semireducible] Rat.add Rat.mul Rat.inv Rat.sub

set_option maxRecDepth 1000000

/-- One OHLCV row of the fetched DataFrame.  The Python column `open` is a Lean
keyword, so that field is called `opn` here. -/
structure Candle where
  timestamp : Nat
  opn : ℚ
  high : ℚ
  low : ℚ
  close : ℚ
  volume : ℚ
deriving DecidableEq

/-- The `close` column of the DataFrame. -/
def closes (rows : List Candle) : List ℚ :=
  rows.map (fun r => r.close)

/-- `df.iloc[-1]['close']` (the source only reaches it on nonempty data;
the default 0 is never used under the length guard). -/
def lastClose (rows : List Candle) : ℚ :=
  ((closes rows).getLast?).getD 0

/-- One step of pandas `ewm(alpha=α, adjust=True)`: running weighted numerator
and weight sum, `S ← x + (1-α)·S`, `W ← 1 + (1-α)·W`. -/
def ewmStep (α : ℚ) (sw : ℚ × ℚ) (x : ℚ) : ℚ × ℚ :=
  (x + (1 - α) * sw.1, 1 + (1 - α) * sw.2)

/-- Numerator and weight sum of the adjusted exponential weighted mean. -/
def ewmNumDen (α : ℚ) (xs : List ℚ) : ℚ × ℚ :=
  xs.foldl (ewmStep α) (0, 0)

/-- pandas `Series(xs).ewm(alpha=α, adjust=True).mean()` at the last index. -/
def ewmAdj (α : ℚ) (xs : List ℚ) : ℚ :=
  (ewmNumDen α xs).1 / (ewmNumDen α xs).2

/-- `close.diff(1)` without the leading NaN. -/
def diffs (cs : List ℚ) : List ℚ :=
  List.zipWith (fun a b => b - a) cs cs.tail

/-- Up-moves: `positive[positive < 0] = 0` applied to the diffs. -/
def gains (cs : List ℚ) : List ℚ :=
  (diffs cs).map (fun d => max d 0)

/-- Down-move magnitudes: `negative[negative > 0] = 0`, then absolute value. -/
def losses (cs : List ℚ) : List ℚ :=
  (diffs cs).map (fun d => max (-d) 0)

/-- Wilder average gain, `rma(positive, 14)` at the last index. -/
def avgGain (cs : List ℚ) : ℚ :=
  ewmAdj (1/14) (gains cs)

/-- Wilder average loss, `rma(negative, 14).abs()` at the last index. -/
def avgLoss (cs : List ℚ) : ℚ :=
  ewmAdj (1/14) (losses cs)

/-- `RSI_14` at the last row: `100 * positive_avg / (positive_avg + negative_avg.abs())`.
`none` models pandas NaN: too little history (`min_periods=14` over the diffs,
which carry one leading NaN), or the 0/0 of an all-flat series. -/
def rsi14 (cs : List ℚ) : Option ℚ :=
  if cs.length < 15 then none
  else if avgGain cs + avgLoss cs = 0 then none
  else some (100 * avgGain cs / (avgGain cs + avgLoss cs))

/-- `EMA_50` at the last row: SMA of the first 50 closes as seed, then
`ema = close * (2/51) + ema * (49/51)` over the remaining closes. -/
def ema50 (cs : List ℚ) : Option ℚ :=
  if cs.length < 50 then none
  else some ((cs.drop 50).foldl (fun e x => x * (2/51) + e * (49/51)) ((cs.take 50).sum / 50))

/-- Round half to even to an integer (Python float formatting tie-breaking),
computed on the rational's numerator and (positive) denominator:
`f = ⌊q⌋`, remainder `r/d` compared with `1/2`. -/
def rhe (q : ℚ) : ℤ :=
  let d : ℤ := (q.den : ℤ)
  let f := q.num.fdiv d
  let r := q.num - f * d
  if 2 * r < d then f
  else if d < 2 * r then f + 1
  else if f % 2 = 0 then f else f + 1

/-- Left-pad a fractional part below 10000 to four digits. -/
def pad4 (n : Nat) : String :=
  if n < 10 then "000" ++ toString n
  else if n < 100 then "00" ++ toString n
  else if n < 1000 then "0" ++ toString n
  else toString n

/-- Python formatting of q to a fixed-point string with exactly four decimal places. -/
def format4 (q : ℚ) : String :=
  let n := rhe (q * 10000)
  let m := n.natAbs
  (if n < 0 then "-" else "") ++ toString (m / 10000) ++ "." ++ pad4 (m % 10000)

/-- The f-string message template built by `generate_signal` on a trigger. -/
def signal_message (symbol timeframe : String) (entry tp sl : ℚ) : String :=
  "🚨 **New AI Signal** 🚨\n\n**Pair:** " ++ symbol ++
  "\n**Timeframe:** " ++ timeframe ++
  "\n**Signal:** LONG (BUY)\n**Reason:** RSI Oversold in Uptrend\n\n**Entry:** `" ++
  format4 entry ++ "`\n**Take Profit (TP):** `" ++ format4 tp ++
  "`\n**Stop Loss (SL):** `" ++ format4 sl ++ "`"

/-- The strategy rule applied to the last row's values, exactly as in the source:
`is_oversold = last_candle["RSI_14"] < 35`, `is_uptrend = close > last_candle["EMA_50"]`,
with pandas NaN (here `none`) comparing false; on trigger, TP = entry * 1.03 and
SL = entry * 0.985. -/
def strategy_eval (symbol timeframe : String) (lastC : ℚ) (rsiLast emaLast : Option ℚ) :
    Option String :=
  let is_oversold : Bool := match rsiLast with
    | some r => decide (r < 35)
    | none => false
  let is_uptrend : Bool := match emaLast with
    | some e => decide (lastC > e)
    | none => false
  if is_oversold && is_uptrend then
    some (signal_message symbol timeframe lastC (lastC * (103/100)) (lastC * (197/200)))
  else none

/-- `generate_signal` on a non-None DataFrame: length guard, indicator
computation, then the rule on the last row. -/
def generate_signal_core (rows : List Candle) (symbol timeframe : String) : Option String :=
  if rows.length < 50 then none
  else strategy_eval symbol timeframe (lastClose rows) (rsi14 (closes rows)) (ema50 (closes rows))

/-- `generate_signal(df, symbol, timeframe)`; `df is None` short-circuits. -/
def generate_signal (df : Option (List Candle)) (symbol timeframe : String) : Option String :=
  match df with
  | none => none
  | some rows => generate_signal_core rows symbol timeframe

/-- A DataFrame as mutated in place by `df.ta.rsi(append=True)` /
`df.ta.ema(append=True)`: the OHLCV rows plus the optionally-present appended
indicator columns (recorded by their value at the last row; the inner `Option`
is pandas NaN). -/
structure DataFrame where
  rows : List Candle
  rsiCol : Option (Option ℚ)
  emaCol : Option (Option ℚ)
deriving DecidableEq

/-- `generate_signal` with the DataFrame mutation made explicit: below the
length guard nothing is touched; otherwise both indicator columns are
(re)computed from the `close` column and appended, overwriting any existing
columns, and the rule is evaluated on the freshly computed values. -/
def generate_signal_st (df : DataFrame) (symbol timeframe : String) :
    Option String × DataFrame :=
  if df.rows.length < 50 then (none, df)
  else
    (strategy_eval symbol timeframe (lastClose df.rows) (rsi14 (closes df.rows)) (ema50 (closes df.rows)),
     ⟨df.rows, some (rsi14 (closes df.rows)), some (ema50 (closes df.rows))⟩)

/-- A (symbol, timeframe) entry of `PAIRS_TO_SCAN`. -/
abbrev Pair : Type := String × String

/-- Python truthiness of `if not TARGET_CHAT_ID`: `None` and chat id `0` are falsy. -/
def isFalsyChat : Option ℤ → Bool
  | none => true
  | some c => c == 0

/-- The warning logged when no target chat is set. -/
def warnMsg : String := "TARGET_CHAT_ID is not set. Cannot send signals."

/-- Processing of one pair inside the loop of `check_for_signals`:
`get_crypto_data` (its internal `try/except` returns `None` on a fetch error,
modelled by the `fetch` oracle returning `none`), then — only when data came
back — `generate_signal`, then the optional `send_message`.  First component:
the pairs on which `generate_signal` ran; second: the messages sent.  This is
the projection of the loop in which every attempted send succeeds; the
fallible-send loop, where an uncaught `send_message` exception aborts the
run, is `loopPairs` below. -/
def runPair (chat : ℤ) (fetch : Pair → Option (List Candle)) (p : Pair) :
    List Pair × List (ℤ × String) :=
  match fetch p with
  | none => ([], [])
  | some rows =>
    match generate_signal_core rows p.1 p.2 with
    | none => ([p], [])
    | some msg => ([p], [(chat, msg)])

/-- Observable trace of one scheduled run: warnings logged, pairs fetched,
pairs evaluated, and messages pushed over the Telegram channel, in program
order. -/
structure RunTrace where
  warnings : List String
  fetches : List Pair
  evals : List Pair
  sends : List (ℤ × String)
deriving DecidableEq

/-- `check_for_signals`: the guard `if not TARGET_CHAT_ID: log; return` runs
before the pair loop; then every configured pair is fetched and, when data
came back, evaluated and its signal (if any) sent.  Sends are modelled as
succeeding here (the attempted pushes are the `sends` field); the model in
which a send can raise is `check_for_signals_exc`, and
`check_for_signals_exc_of_send_ok` shows this function is its
all-sends-succeed projection. -/
def check_for_signals (target : Option ℤ) (fetch : Pair → Option (List Candle))
    (pairs : List Pair) : RunTrace :=
  if isFalsyChat target then ⟨[warnMsg], [], [], []⟩
  else
    ⟨[], pairs,
     pairs.flatMap (fun p => (runPair (target.getD 0) fetch p).1),
     pairs.flatMap (fun p => (runPair (target.getD 0) fetch p).2)⟩

/-- The scheduler fires `check_for_signals` once per interval; the source
carries no state between runs, so run `i` sees only that run's fetch results. -/
def scheduledRuns (n : Nat) (target : Option ℤ)
    (fetch : Nat → Pair → Option (List Candle)) (pairs : List Pair) : List RunTrace :=
  (List.range n).map (fun i => check_for_signals target (fetch i) pairs)

/-- Result of the pair loop with a fallible send: pairs fetched, pairs
evaluated, messages delivered, and whether an uncaught exception was raised
(aborting the loop). -/
structure LoopOut where
  fetches : List Pair
  evals : List Pair
  sends : List (ℤ × String)
  raised : Bool
deriving DecidableEq

/-- The pair loop of `check_for_signals` with the send's failure path kept:
`await context.bot.send_message(...)` is not wrapped in any `try/except`, so
when the channel rejects a message (`sendOk chat msg = false`) the exception
aborts the loop — no later pair is fetched, evaluated or dispatched — and
`raised` records the escaping error. -/
def loopPairs (chat : ℤ) (fetch : Pair → Option (List Candle))
    (sendOk : ℤ → String → Bool) : List Pair → LoopOut
  | [] => ⟨[], [], [], false⟩
  | p :: rest =>
    match fetch p with
    | none =>
      let o := loopPairs chat fetch sendOk rest
      ⟨p :: o.fetches, o.evals, o.sends, o.raised⟩
    | some rows =>
      match generate_signal_core rows p.1 p.2 with
      | none =>
        let o := loopPairs chat fetch sendOk rest
        ⟨p :: o.fetches, p :: o.evals, o.sends, o.raised⟩
      | some msg =>
        if sendOk chat msg then
          let o := loopPairs chat fetch sendOk rest
          ⟨p :: o.fetches, p :: o.evals, (chat, msg) :: o.sends, o.raised⟩
        else ⟨[p], [p], [], true⟩

/-- `check_for_signals` with the fallible send: the run's trace together with
the flag that an uncaught per-pair dispatch error escaped the function (the
scheduler boundary). -/
def check_for_signals_exc (target : Option ℤ) (fetch : Pair → Option (List Candle))
    (sendOk : ℤ → String → Bool) (pairs : List Pair) : RunTrace × Bool :=
  if isFalsyChat target then (⟨[warnMsg], [], [], []⟩, false)
  else
    let o := loopPairs (target.getD 0) fetch sendOk pairs
    (⟨[], o.fetches, o.evals, o.sends⟩, o.raised)

/-- A channel that rejects every message — exactly what Telegram does to this
bot's unescaped MarkdownV2 template. -/
def sendNever : ℤ → String → Bool := fun _ _ => false

/-- Reply of `/start` when the slot was empty and `uid` was saved. -/
def savedReply (uid : ℤ) : String :=
  "Hello! I will now send trading signals to this chat.\nYour Chat ID is: `" ++
  toString uid ++ "`. I have saved it."

/-- Reply of `/start` when the caller already holds the slot. -/
def hereReply : String := "I\x27m already configured to send signals here."

/-- Reply of `/start` when a different chat holds the slot. -/
def otherReply : String := "I\x27m already configured to send signals to another user."

/-- The `/start` handler: new registry state and the reply sent, from the
current `TARGET_CHAT_ID` and the caller's chat id. -/
def start (state : Option ℤ) (uid : ℤ) : Option ℤ × String :=
  match state with
  | none => (some uid, savedReply uid)
  | some id => if id = uid then (some id, hereReply) else (some id, otherReply)

/-- The characters reserved by Telegram MarkdownV2
(underscore, asterisk, brackets, parentheses, tilde, backtick,
angle bracket, hash, plus, minus, equals, pipe, braces, dot, bang). -/
def mdv2Reserved : List Char :=
  ['_', '*', '[', ']', '(', ')', '~', '`', '>', '#', '+', '-', '=', '|',
   '\x7b', '\x7d', '.', '!']

/-- Scan of a character list for Telegram MarkdownV2 escaping: a backslash
escapes the next character; any unescaped reserved character fails. -/
def escapedOk : List Char → Bool
  | [] => true
  | c :: rest =>
    if c = '\\' then
      match rest with
      | [] => true
      | _ :: rest2 => escapedOk rest2
    else
      !(mdv2Reserved.contains c) && escapedOk rest

/-- Whether every reserved MarkdownV2 character in `s` is backslash-escaped,
per the channel's documented rule for `parse_mode="MarkdownV2"`. -/
def properlyEscaped (s : String) : Bool :=
  escapedOk s.data

/-- Convenience constructor for a concrete OHLCV row with a given close. -/
def mkRow (i : Nat) (c : ℚ) : Candle :=
  ⟨i, c, c, c, c, 0⟩

/-- A concrete 85-candle series on which the strategy triggers: 50 candles at
100, a jump to 200 held for 32 candles, then three drops 194, 188, 182.  The
latest RSI(14) is below 35 (recent down-moves dominate the long-past up-move)
while the latest close 182 is still above EMA(50). -/
def rowsW : List Candle :=
  ((List.range 50).map (fun i => mkRow i 100)) ++
  ((List.range 32).map (fun i => mkRow (50 + i) 200)) ++
  [mkRow 82 194, mkRow 83 188, mkRow 84 182]

/-- The message the source builds and sends for `rowsW` on pair BTC/USDT, 15m. -/
def msgW : String :=
  signal_message ("BTC/USDT") ("15m") 182 (182 * (103/100)) (182 * (197/200))

/-- The BTC 15-minute entry of `PAIRS_TO_SCAN`. -/
def pairW : Pair := ("BTC/USDT", "15m")

/-- A pair whose fetch fails (the `ccxt` call raises and `get_crypto_data`
returns `None`). -/
def pairBad : Pair := ("BAD/USDT", "1h")

/-- A fetch oracle: the BTC pair returns the triggering series `rowsW`,
every other pair fails. -/
def fetchW : Pair → Option (List Candle) :=
  fun p => if p = pairW then some rowsW else none

/-- A second configured pair, scanned after `pairW`. -/
def pairW2 : Pair := ("ETH/USDT", "15m")

/-- A fetch oracle on which every pair returns the triggering series. -/
def fetchAll : Pair → Option (List Candle) :=
  fun _ => some rowsW

/-- Fifty identical candles: enough history for the evaluator's length guard,
but the all-flat series makes `RSI_14` the NaN `0/0`. -/
def rows5 : List Candle :=
  (List.range 50).map (fun i => mkRow i 5)

/-- Strictly increasing closes 0,1,…,14: every move is a gain, so the Wilder
average loss is 0 and RSI(14) is exactly 100. -/
def l15 : List ℚ :=
  (List.range 15).map (fun i => (i : ℚ))

/-- A freshly fetched DataFrame (no indicator columns yet). -/
def dfA : DataFrame := ⟨rows5, none, none⟩

/-- The same rows carrying stale indicator columns from an earlier in-place
append. -/
def dfB : DataFrame := ⟨rows5, some (some 5), some none⟩

/-! ## Helper lemmas -/

/-- The `close` column has one entry per row. -/
theorem closes_length (rows : List Candle) : (closes rows).length = rows.length := by
  simp [closes]

/-- `EMA_50` is absent at the last row exactly when there are fewer than 50 closes. -/
theorem ema50_eq_none_iff (cs : List ℚ) : ema50 cs = none ↔ cs.length < 50 := by
  unfold ema50
  split <;> simp_all

/-- The running weighted numerator of the adjusted EWM stays nonnegative on
nonnegative data. -/
theorem ewm_fold_fst_nonneg (α : ℚ) (hα : 0 ≤ 1 - α) (xs : List ℚ) :
    ∀ s w : ℚ, (∀ x ∈ xs, 0 ≤ x) → 0 ≤ s → 0 ≤ (xs.foldl (ewmStep α) (s, w)).1 := by
  induction xs with
  | nil => intro s w _ hs; simpa using hs
  | cons x rest ih =>
    intro s w hxs hs
    simp only [List.foldl_cons]
    exact ih (x + (1 - α) * s) (1 + (1 - α) * w)
      (fun y hy => hxs y (List.mem_cons_of_mem x hy))
      (add_nonneg (hxs x (List.mem_cons_self x rest)) (mul_nonneg hα hs))

/-- The running weight sum of the adjusted EWM stays nonnegative. -/
theorem ewm_fold_snd_nonneg (α : ℚ) (hα : 0 ≤ 1 - α) (xs : List ℚ) :
    ∀ s w : ℚ, 0 ≤ w → 0 ≤ (xs.foldl (ewmStep α) (s, w)).2 := by
  induction xs with
  | nil => intro s w hw; simpa using hw
  | cons x rest ih =>
    intro s w hw
    simp only [List.foldl_cons]
    exact ih (x + (1 - α) * s) (1 + (1 - α) * w)
      (add_nonneg zero_le_one (mul_nonneg hα hw))

/-- After at least one observation the weight sum of the adjusted EWM is at
least 1. -/
theorem ewm_fold_snd_ge_one (α : ℚ) (hα : 0 ≤ 1 - α) (xs : List ℚ) :
    ∀ s w : ℚ, 0 ≤ w → xs ≠ [] → 1 ≤ (xs.foldl (ewmStep α) (s, w)).2 := by
  induction xs with
  | nil => intro s w _ h; exact absurd rfl h
  | cons x rest ih =>
    intro s w hw _
    simp only [List.foldl_cons]
    cases rest with
    | nil =>
      simp only [List.foldl_nil, ewmStep]
      exact le_add_of_nonneg_right (mul_nonneg hα hw)
    | cons y t =>
      exact ih (x + (1 - α) * s) (1 + (1 - α) * w)
        (add_nonneg zero_le_one (mul_nonneg hα hw)) (List.cons_ne_nil y t)

/-- The adjusted EWM of a nonnegative series is nonnegative. -/
theorem ewmAdj_nonneg (α : ℚ) (hα : 0 ≤ 1 - α) (xs : List ℚ)
    (hxs : ∀ x ∈ xs, 0 ≤ x) : 0 ≤ ewmAdj α xs := by
  unfold ewmAdj ewmNumDen
  exact div_nonneg (ewm_fold_fst_nonneg α hα xs 0 0 hxs le_rfl)
    (ewm_fold_snd_nonneg α hα xs 0 0 le_rfl)

/-- Wilder average gain is nonnegative. -/
theorem avgGain_nonneg (cs : List ℚ) : 0 ≤ avgGain cs := by
  apply ewmAdj_nonneg _ (by norm_num)
  intro x hx
  simp only [gains, List.mem_map] at hx
  obtain ⟨d, _, rfl⟩ := hx
  exact le_max_right d 0

/-- Wilder average loss is nonnegative. -/
theorem avgLoss_nonneg (cs : List ℚ) : 0 ≤ avgLoss cs := by
  apply ewmAdj_nonneg _ (by norm_num)
  intro x hx
  simp only [losses, List.mem_map] at hx
  obtain ⟨d, _, rfl⟩ := hx
  exact le_max_right (-d) 0

/-- The option result of `generate_signal_st` is a pure function of the rows. -/
theorem generate_signal_st_fst (df : DataFrame) (symbol timeframe : String) :
    (generate_signal_st df symbol timeframe).1 = generate_signal (some df.rows) symbol timeframe := by
  by_cases h : df.rows.length < 50 <;>
    simp [generate_signal_st, generate_signal, generate_signal_core, h]

/-- `generate_signal_st` never touches the OHLCV rows. -/
theorem generate_signal_st_rows (df : DataFrame) (symbol timeframe : String) :
    ((generate_signal_st df symbol timeframe).2).rows = df.rows := by
  by_cases h : df.rows.length < 50 <;> simp [generate_signal_st, h]

/-- Mapping a constant function over `List.range`. -/
theorem map_range_const {β : Type} (n : Nat) (b : β) :
    (List.range n).map (fun _ => b) = List.replicate n b := by
  rw [List.map_const', List.length_range]

/-! ## Claims -/

/-- Claim C2: the subscriber registry is a single-slot state machine with no
transition back to Unset — re-registering the id that holds the slot succeeds
idempotently and keeps the state, and a different id is rejected with the
"another user" reply, leaving the registry unchanged. -/
theorem registry_single_slot (id id2 uid : ℤ) (hne : id2 ≠ id) :
    (start (some id) uid).1 = some id
    ∧ start (some id) id = (some id, hereReply)
    ∧ start (some id) id2 = (some id, otherReply) := by
  refine ⟨?_, ?_, ?_⟩
  · simp only [start]
    split <;> rfl
  · simp [start]
  · simp [start, hne.symm]

/-- Witness for C2 at concrete chat ids 7, 9 and 3. -/
theorem registry_single_slot_witness :
    (start (some 7) 3).1 = some 7
    ∧ start (some 7) 7 = (some 7, hereReply)
    ∧ start (some 7) 9 = (some 7, otherReply) :=
  registry_single_slot 7 9 3 (by decide)

/-- Claim C6: with no registered subscriber a run performs zero calls to the
notification channel (and, the source keeping no queue, no signal is stored);
the condition is logged as a warning, not raised as an error. -/
theorem dispatcher_noop_unregistered (fetch : Pair → Option (List Candle))
    (pairs : List Pair) :
    (check_for_signals none fetch pairs).sends = []
    ∧ (check_for_signals none fetch pairs).warnings = [warnMsg] :=
  ⟨rfl, rfl⟩

/-- Claim C10: the subscriber check precedes the pair loop, so with no
registered subscriber a scheduled run performs zero fetches and zero
evaluations for every configured pair — not merely zero sends. -/
theorem no_subscriber_skips_pipeline (fetch : Pair → Option (List Candle))
    (pairs : List Pair) :
    (check_for_signals none fetch pairs).fetches = []
    ∧ (check_for_signals none fetch pairs).evals = []
    ∧ (check_for_signals none fetch pairs).warnings = [warnMsg] :=
  ⟨rfl, rfl, rfl⟩

/-- Claim C1: on any series of length ≥ 50 whose latest RSI(14) and EMA(50)
are defined, the evaluator signals LONG exactly when RSI(14) < 35 and
close > EMA(50); a trigger uses entry = close, TP = entry * 1.03,
SL = entry * 0.985 and the oversold-in-uptrend reason (embedded in the fixed
message template); the spec's two scenarios evaluate as claimed, with
entry 100.0000, TP 103.0000, SL 98.5000 on the first and no signal on the
second. -/
theorem strategy_long_iff (rows : List Candle) (symbol timeframe : String) (r e : ℚ)
    (hlen : 50 ≤ rows.length)
    (hr : rsi14 (closes rows) = some r)
    (he : ema50 (closes rows) = some e) :
    ((generate_signal (some rows) symbol timeframe).isSome ↔ (r < 35 ∧ lastClose rows > e))
    ∧ ((r < 35 ∧ lastClose rows > e) →
        generate_signal (some rows) symbol timeframe =
          some (signal_message symbol timeframe (lastClose rows)
            (lastClose rows * (103/100)) (lastClose rows * (197/200))))
    ∧ strategy_eval ("BTC/USDT") ("15m") 100 (some 30) (some 95) =
        some (signal_message ("BTC/USDT") ("15m") 100 (100 * (103/100)) (100 * (197/200)))
    ∧ format4 100 = "100.0000"
    ∧ format4 (100 * (103/100)) = "103.0000"
    ∧ format4 (100 * (197/200)) = "98.5000"
    ∧ strategy_eval ("BTC/USDT") ("15m") 100 (some 20) (some 105) = none := by
  have h50 : ¬ rows.length < 50 := by omega
  refine ⟨?_, ?_, by decide, by decide, by decide, by decide, by decide⟩
  · simp only [generate_signal, generate_signal_core, if_neg h50, strategy_eval, hr, he]
    by_cases h1 : r < 35 <;> by_cases h2 : e < lastClose rows <;>
      simp [h1, h2]
  · rintro ⟨h1, h2⟩
    simp only [generate_signal, generate_signal_core, if_neg h50, strategy_eval, hr, he]
    simp [h1, h2]

/-- Witness for C1 on the concrete triggering series `rowsW`. -/
theorem strategy_long_iff_witness :
    (((generate_signal (some rowsW) ("BTC/USDT") ("15m")).isSome ↔
        ((rsi14 (closes rowsW)).getD 0 < 35
          ∧ lastClose rowsW > (ema50 (closes rowsW)).getD 0))
    ∧ (((rsi14 (closes rowsW)).getD 0 < 35
          ∧ lastClose rowsW > (ema50 (closes rowsW)).getD 0) →
        generate_signal (some rowsW) ("BTC/USDT") ("15m") =
          some (signal_message ("BTC/USDT") ("15m") (lastClose rowsW)
            (lastClose rowsW * (103/100)) (lastClose rowsW * (197/200))))
    ∧ strategy_eval ("BTC/USDT") ("15m") 100 (some 30) (some 95) =
        some (signal_message ("BTC/USDT") ("15m") 100 (100 * (103/100)) (100 * (197/200)))
    ∧ format4 100 = "100.0000"
    ∧ format4 (100 * (103/100)) = "103.0000"
    ∧ format4 (100 * (197/200)) = "98.5000"
    ∧ strategy_eval ("BTC/USDT") ("15m") 100 (some 20) (some 105) = none) :=
  strategy_long_iff rowsW ("BTC/USDT") ("15m")
    ((rsi14 (closes rowsW)).getD 0) ((ema50 (closes rowsW)).getD 0)
    (by decide) (by decide) (by decide)

/-- Claim C5: a series shorter than the 50-candle minimum window, or one whose
RSI(14) or EMA(50) is absent at the latest index, never produces a signal. -/
theorem no_signal_when_undefined (rows : List Candle) (symbol timeframe : String)
    (h : rows.length < 50 ∨ rsi14 (closes rows) = none ∨ ema50 (closes rows) = none) :
    generate_signal (some rows) symbol timeframe = none := by
  rcases h with h | h | h
  · simp [generate_signal, generate_signal_core, h]
  · by_cases h50 : rows.length < 50
    · simp [generate_signal, generate_signal_core, h50]
    · simp [generate_signal, generate_signal_core, h50, strategy_eval, h]
  · have : rows.length < 50 := by
      have := (ema50_eq_none_iff (closes rows)).1 h
      rwa [closes_length] at this
    simp [generate_signal, generate_signal_core, this]

/-- Witness for C5: fifty flat candles (RSI is the 0/0 NaN) yield no signal. -/
theorem no_signal_when_undefined_witness :
    generate_signal (some rows5) ("ETH/USDT") ("15m") = none :=
  no_signal_when_undefined rows5 ("ETH/USDT") ("15m") (Or.inr (Or.inl (by decide)))

/-- Claim C8: the evaluator is pure and deterministic — its result depends only
on the candle rows (not on any previously appended indicator columns), and
running it again after a previous run returns the identical result. -/
theorem evaluator_pure (df df2 : DataFrame) (symbol timeframe : String)
    (h : df.rows = df2.rows) :
    (generate_signal_st df symbol timeframe).1 = (generate_signal_st df2 symbol timeframe).1
    ∧ (generate_signal_st (generate_signal_st df symbol timeframe).2 symbol timeframe).1
        = (generate_signal_st df symbol timeframe).1 := by
  constructor
  · rw [generate_signal_st_fst, generate_signal_st_fst, h]
  · rw [generate_signal_st_fst, generate_signal_st_fst, generate_signal_st_rows]

/-- Witness for C8: a fresh DataFrame and one carrying stale indicator columns
over the same rows. -/
theorem evaluator_pure_witness :
    (generate_signal_st dfA ("BTC/USDT") ("15m")).1 = (generate_signal_st dfB ("BTC/USDT") ("15m")).1
    ∧ (generate_signal_st (generate_signal_st dfA ("BTC/USDT") ("15m")).2 ("BTC/USDT") ("15m")).1
        = (generate_signal_st dfA ("BTC/USDT") ("15m")).1 :=
  evaluator_pure dfA dfB ("BTC/USDT") ("15m") rfl

/-- With a channel that accepts every message, the fallible-send run agrees
with `check_for_signals` and raises nothing: the trace model used by the
other claims is the all-sends-succeed projection of `check_for_signals_exc`. -/
theorem check_for_signals_exc_of_send_ok (target : Option ℤ)
    (fetch : Pair → Option (List Candle)) (pairs : List Pair) :
    check_for_signals_exc target fetch (fun _ _ => true) pairs
      = (check_for_signals target fetch pairs, false) := by
  unfold check_for_signals_exc check_for_signals
  by_cases hf : isFalsyChat target
  · simp [hf]
  · simp only [hf, if_false, Bool.false_eq_true]
    set chat := target.getD 0 with hc
    induction pairs with
    | nil => simp [loopPairs]
    | cons p rest ih =>
      simp only [Prod.mk.injEq, RunTrace.mk.injEq] at ih
      cases hfp : fetch p with
      | none =>
        simp only [loopPairs, hfp, List.flatMap_cons, runPair]
        simp_all [runPair]
      | some rows =>
        cases hg : generate_signal_core rows p.1 p.2 with
        | none =>
          simp only [loopPairs, hfp, hg, List.flatMap_cons, runPair]
          simp_all [runPair]
        | some msg =>
          simp only [loopPairs, hfp, hg, List.flatMap_cons, runPair, if_true]
          simp_all [runPair]

/-- Counterexample to claim C3: with two configured pairs both returning a
triggering series, the uncaught `send_message` failure on the first pair
propagates past the scheduler boundary (`raised = true`) and the second pair
is never fetched, never evaluated and never dispatched in that run. -/
theorem dispatch_abort_counterexample :
    check_for_signals_exc (some 1) fetchAll sendNever [pairW, pairW2]
      = (⟨[], [pairW], [pairW], []⟩, true) := by decide

/-- Amended claim C3: per-pair isolation holds only up to dispatch.  A fetch
failure (caught inside `get_crypto_data`) or an evaluation producing no signal
on one pair leaves the remaining pairs' fetches, evaluations, deliveries and
exception status exactly those of the run on the remaining pairs alone; but a
dispatch failure is not isolated: an uncaught `send_message` error on one pair
escapes `check_for_signals` (the scheduler boundary) and aborts fetching,
evaluation and dispatch of every remaining pair in that run. -/
theorem dispatch_not_isolated (chat : ℤ) (fetch : Pair → Option (List Candle))
    (sendOk : ℤ → String → Bool) (p : Pair) (rest : List Pair) (hchat : chat ≠ 0) :
    ((fetch p = none ∨ generate_signal (fetch p) p.1 p.2 = none) →
      check_for_signals_exc (some chat) fetch sendOk (p :: rest)
        = ((⟨[], p :: (loopPairs chat fetch sendOk rest).fetches,
              (runPair chat fetch p).1 ++ (loopPairs chat fetch sendOk rest).evals,
              (loopPairs chat fetch sendOk rest).sends⟩ : RunTrace),
           (loopPairs chat fetch sendOk rest).raised))
    ∧ (∀ rows msg, fetch p = some rows → generate_signal_core rows p.1 p.2 = some msg →
        sendOk chat msg = false →
        check_for_signals_exc (some chat) fetch sendOk (p :: rest)
          = ((⟨[], [p], [p], []⟩ : RunTrace), true)) := by
  have hfalse : isFalsyChat (some chat) = false := by
    simp [isFalsyChat, hchat]
  constructor
  · intro hfail
    rcases hfail with h | h
    · simp [check_for_signals_exc, hfalse, loopPairs, h, runPair]
    · cases hf : fetch p with
      | none => simp [check_for_signals_exc, hfalse, loopPairs, hf, runPair]
      | some rows =>
        rw [hf] at h
        simp only [generate_signal] at h
        simp [check_for_signals_exc, hfalse, loopPairs, hf, h, runPair]
  · intro rows msg hrows hgen hsend
    simp [check_for_signals_exc, hfalse, loopPairs, hrows, hgen, hsend]

/-- Witness for the amended C3: `pairBad` fails to fetch ahead of the BTC
pair, whose processing (including the abort caused by the rejecting channel)
is exactly that of a run without `pairBad`. -/
theorem dispatch_not_isolated_witness :
    ((fetchW pairBad = none ∨ generate_signal (fetchW pairBad) pairBad.1 pairBad.2 = none) →
      check_for_signals_exc (some 1) fetchW sendNever (pairBad :: [pairW])
        = ((⟨[], pairBad :: (loopPairs 1 fetchW sendNever [pairW]).fetches,
              (runPair 1 fetchW pairBad).1 ++ (loopPairs 1 fetchW sendNever [pairW]).evals,
              (loopPairs 1 fetchW sendNever [pairW]).sends⟩ : RunTrace),
           (loopPairs 1 fetchW sendNever [pairW]).raised))
    ∧ (∀ rows msg, fetchW pairBad = some rows →
        generate_signal_core rows pairBad.1 pairBad.2 = some msg →
        sendNever 1 msg = false →
        check_for_signals_exc (some 1) fetchW sendNever (pairBad :: [pairW])
          = ((⟨[], [pairBad], [pairBad], []⟩ : RunTrace), true)) :=
  dispatch_not_isolated 1 fetchW sendNever pairBad [pairW] (by decide)

/-- Counterexample to claim C4: the source keeps no state between runs, so two
consecutive runs over an unchanged market both push the identical alert
`msgW` to the subscriber — the alert is re-sent every interval, it is not
deduplicated. -/
theorem dedup_counterexample :
    (scheduledRuns 2 (some 1) (fun _ => fetchW) [pairW]).map RunTrace.sends
      = [[(1, msgW)], [(1, msgW)]] := by decide

/-- Amended claim C4: alerts are not deduplicated — every scheduled run is the
identical stateless function of that run's fetch results, so while a pair's
triggering condition persists unchanged the identical alert is pushed to the
subscriber again on every interval. -/
theorem runs_stateless_resend (n : Nat) (target : Option ℤ)
    (fetch : Pair → Option (List Candle)) (pairs : List Pair) :
    scheduledRuns n target (fun _ => fetch) pairs
      = List.replicate n (check_for_signals target fetch pairs) := by
  simp only [scheduledRuns]
  rw [map_range_const]

/-- Claim C9: whenever RSI(14) is defined at the latest index it lies in
[0, 100]; it equals 100 exactly when the Wilder average loss is 0 and equals 0
exactly when the Wilder average gain is 0. -/
theorem rsi_bounds (cs : List ℚ) (r : ℚ) (h : rsi14 cs = some r) :
    (0 ≤ r ∧ r ≤ 100) ∧ (r = 100 ↔ avgLoss cs = 0) ∧ (r = 0 ↔ avgGain cs = 0) := by
  have hg : 0 ≤ avgGain cs := avgGain_nonneg cs
  have hl : 0 ≤ avgLoss cs := avgLoss_nonneg cs
  simp only [rsi14] at h
  split_ifs at h with h1 h2
  have hr : 100 * avgGain cs / (avgGain cs + avgLoss cs) = r := Option.some.inj h
  have hsum : 0 < avgGain cs + avgLoss cs :=
    lt_of_le_of_ne (add_nonneg hg hl) (Ne.symm h2)
  refine ⟨⟨?_, ?_⟩, ⟨?_, ?_⟩, ⟨?_, ?_⟩⟩
  · rw [← hr]
    exact div_nonneg (mul_nonneg (by norm_num) hg) hsum.le
  · rw [← hr, div_le_iff₀ hsum]
    linarith
  · intro h100
    rw [← hr, div_eq_iff hsum.ne'] at h100
    linarith
  · intro hl0
    have hg0 : avgGain cs ≠ 0 := by
      intro hg0
      exact h2 (by rw [hg0, hl0, add_zero])
    rw [← hr, hl0, add_zero, mul_div_assoc, div_self hg0, mul_one]
  · intro h0
    rw [← hr, div_eq_zero_iff] at h0
    rcases h0 with h0 | h0
    · linarith
    · exact absurd h0 h2
  · intro hg0
    rw [← hr, hg0, mul_zero, zero_div]

/-- Witness for C9: on the strictly rising closes `l15` the average loss is 0
and RSI(14) is exactly 100. -/
theorem rsi_bounds_witness :
    ((0 ≤ (100 : ℚ) ∧ (100 : ℚ) ≤ 100)
    ∧ ((100 : ℚ) = 100 ↔ avgLoss l15 = 0)
    ∧ ((100 : ℚ) = 0 ↔ avgGain l15 = 0)) :=
  rsi_bounds l15 100 (by decide)

/-- Claim C7 (code bug): the outbound alert text does follow the fixed
template with entry/TP/SL at 4 decimal places, but the source sends it with
`parse_mode="MarkdownV2"` without escaping any reserved character — the
message it pushes (for example `msgW`, containing unescaped `*`, `(`, `)`,
`` ` `` and `.`) violates the channel's escaping rule. -/
theorem alert_markup_unescaped :
    (check_for_signals (some 1) fetchW [pairW]).sends = [(1, msgW)]
    ∧ properlyEscaped msgW = false := by
  exact ⟨by decide, by decide⟩
